import Mathlib

/-
Verification of go-oauth2kit (oauth2.go): a shallow embedding of the
token-lifecycle state machine — GetToken, NewOAuth2Client, the token store
(store/load), redirect-URL construction, and the authorization-URL
parameters — together with theorems settling the specification claims.

External collaborators (the golang.org/x/oauth2 library's code exchange,
token refresh and SHA-256 PKCE challenge; the OS file system; the wall
clock; the outcome of the select over code/error/timeout channels) are
modelled as inputs in an environment record, so GetToken and
NewOAuth2Client become pure functions of (Config, Env).
-/

namespace OAuth2Kit

/-- A JSON value as far as the token file is concerned: the oauth2.Token
fields are strings plus a timestamp, which we model as an integer. -/
inductive JsonVal where
  | str : String → JsonVal
  | num : Int → JsonVal
deriving Repr, DecidableEq

/-- The Credential record persisted in the token file: the JSON-visible
fields of golang.org/x/oauth2.Token (access_token, token_type,
refresh_token, expiry).  Expiry is a timestamp modelled as Int; the Go
zero time is modelled as 0. -/
structure Credential where
  accessToken : String
  tokenType : String
  refreshToken : String
  expiry : Int
deriving Repr, DecidableEq

/-- Contents of a file on disk: either a well-formed JSON object (a field
list) or bytes that do not parse as JSON. -/
inductive FileData where
  | json : List (String × JsonVal) → FileData
  | malformed : FileData
deriving Repr, DecidableEq

/-- The file system visible to the token store: a map from file name to
contents; `none` means the file does not exist (os.IsNotExist). -/
def FS := String → Option FileData

def FS.update (fs : FS) (name : String) (d : FileData) : FS :=
  fun m => if m = name then some d else fs m

def emptyFS : FS := fun _ => none

/-- json.Encoder.Encode on an oauth2.Token: access_token always present,
token_type and refresh_token carry omitempty, expiry is always emitted
(time.Time is a struct, omitempty does not elide it). -/
def encodeToken (t : Credential) : List (String × JsonVal) :=
  [("access_token", JsonVal.str t.accessToken)]
    ++ (if t.tokenType = "" then [] else [("token_type", JsonVal.str t.tokenType)])
    ++ (if t.refreshToken = "" then [] else [("refresh_token", JsonVal.str t.refreshToken)])
    ++ [("expiry", JsonVal.num t.expiry)]

/-- One step of json.Decoder.Decode into an oauth2.Token: a known field
sets the corresponding component (wrong type is a decode error), an
unknown field is ignored. -/
def setField (c : Option Credential) (kv : String × JsonVal) : Option Credential :=
  match c with
  | none => none
  | some cred =>
    if kv.1 = "access_token" then
      match kv.2 with
      | JsonVal.str s => some { cred with accessToken := s }
      | _ => none
    else if kv.1 = "token_type" then
      match kv.2 with
      | JsonVal.str s => some { cred with tokenType := s }
      | _ => none
    else if kv.1 = "refresh_token" then
      match kv.2 with
      | JsonVal.str s => some { cred with refreshToken := s }
      | _ => none
    else if kv.1 = "expiry" then
      match kv.2 with
      | JsonVal.num n => some { cred with expiry := n }
      | _ => none
    else some cred

/-- json.Decoder.Decode into a zero oauth2.Token: start from zero values
and apply the fields in order. -/
def decodeToken (fields : List (String × JsonVal)) : Option Credential :=
  fields.foldl setField (some ⟨"", "", "", 0⟩)

/-- Errors load can produce: the os.Open not-exist error, or a JSON
decode error — distinct constructors, hence distinguishable. -/
inductive LoadError where
  | notFound
  | parseError
deriving Repr, DecidableEq

def decodeFile : FileData → Except LoadError Credential
  | FileData.malformed => Except.error LoadError.parseError
  | FileData.json fields =>
    match decodeToken fields with
    | some c => Except.ok c
    | none => Except.error LoadError.parseError

/-- load (oauth2.go): os.Open then json decode. -/
def load (fs : FS) (name : String) : Except LoadError Credential :=
  match fs name with
  | none => Except.error LoadError.notFound
  | some d => decodeFile d

/-- How a call to store can go: success; os.OpenFile itself fails (file
untouched); or the file is opened — and hence truncated, store uses
O_TRUNC — and the subsequent encode/write fails, leaving truncated or
partial bytes behind. -/
inductive StoreOutcome where
  | ok
  | openFail
  | writeFail
deriving Repr, DecidableEq

/-- store (oauth2.go): O_RDWR|O_CREATE|O_TRUNC then json encode.  Returns
the resulting file system and whether the write succeeded. -/
def store (fs : FS) (name : String) (t : Credential) : StoreOutcome → FS × Bool
  | StoreOutcome.ok => (fs.update name (FileData.json (encodeToken t)), true)
  | StoreOutcome.openFail => (fs, false)
  | StoreOutcome.writeFail => (fs.update name FileData.malformed, false)

def defaultLocalAddr : String := ":15440"

def defaultServerPath : String := "/callback"

/-- Config (oauth2.go): the caller-supplied OAuth2 settings. -/
structure Config where
  clientID : String
  clientSecret : String
  scopes : List String
  authEndpoint : String
  tokenEndpoint : String
  serverPath : String
  localAddr : String
  tokenFile : String
deriving Repr, DecidableEq

/-- buildRedirectURL (oauth2.go): fmt.Sprintf of
"http:~localhost%s~callback" (with ~ standing for a slash) over the
(defaulted) local address — note the path is the literal "/callback",
ServerPath is not consulted. -/
def Config.buildRedirectURL (c : Config) : String :=
  let localAddr := if c.localAddr = "" then defaultLocalAddr else c.localAddr
  "http://localhost" ++ localAddr ++ "/callback"

/-- The path GetToken registers the callback handler on:
cfg.ServerPath, defaulted to "/callback" when empty. -/
def Config.callbackHandlerPath (c : Config) : String :=
  if c.serverPath = "" then defaultServerPath else c.serverPath

/-- Model of the external SHA-256 / base64url PKCE challenge computation
(oauth2.S256ChallengeOption); the hash itself is delegated to the
library, so it is modelled as an injective tagging of the verifier. -/
def s256Challenge (verifier : String) : String :=
  "b64url_sha256:" ++ verifier

/-- The query parameters of the authorization URL produced by
oauth2.Config.AuthCodeURL(state, AccessTypeOffline,
S256ChallengeOption(verifier)). -/
def authCodeURLParams (c : Config) (state verifier : String) : List (String × String) :=
  [("response_type", "code"),
   ("client_id", c.clientID),
   ("redirect_uri", c.buildRedirectURL),
   ("scope", String.intercalate " " c.scopes),
   ("state", state),
   ("access_type", "offline"),
   ("code_challenge", s256Challenge verifier),
   ("code_challenge_method", "S256")]

/-- The state argument GetToken passes to AuthCodeURL: the string
literal "state-token" (oauth2.go line 102). -/
def stateArg : String := "state-token"

/-- Lookup of a query parameter by key. -/
def getParam (k : String) : List (String × String) → Option String
  | [] => none
  | (k2, v) :: rest => if k2 = k then some v else getParam k rest

/-- How the select over codeChan / errorChan / 5-minute timer ends. -/
inductive WaitOutcome where
  | code : String → WaitOutcome
  | recvError : WaitOutcome
  | timeout : WaitOutcome
deriving Repr, DecidableEq

/-- The value of authCode after the select: the received code on the
code channel; on errorChan or timeout the branch only logs, so authCode
keeps its zero value "". -/
def WaitOutcome.authCode : WaitOutcome → String
  | WaitOutcome.code c => c
  | WaitOutcome.recvError => ""
  | WaitOutcome.timeout => ""

/-- Externally observable side effects of one GetToken call: whether the
callback HTTP server was started (and on which path), whether the
browser launcher was invoked, the authorization-URL parameters, and the
code passed to the token-endpoint Exchange call (if any). -/
structure Effects where
  startedReceiver : Bool
  receiverPath : Option String
  launchedBrowser : Bool
  authParams : Option (List (String × String))
  exchangeCalled : Option String
deriving Repr, DecidableEq

def noEffects : Effects := ⟨false, none, false, none, none⟩

/-- The environment a GetToken / NewOAuth2Client call runs in: the file
system, whether os.Stat fails with a non-IsNotExist error, the outcome
of the interactive wait, the PKCE verifier oauth2.GenerateVerifier
produced for this call, the provider's behaviour on code exchange and on
token refresh, how a store call would go, and the current time. -/
structure Env where
  fs : FS
  statFails : Bool
  wait : WaitOutcome
  verifier : String
  exchange : String → Except String Credential
  refresh : Credential → Except String Credential
  storeOutcome : StoreOutcome
  now : Int

/-- Errors GetToken / NewOAuth2Client return to the caller. -/
inductive AuthError where
  | statFailed
  | loadFailed : LoadError → AuthError
  | exchangeFailed : String → AuthError
  | storeFailed
  | refreshFailed : String → AuthError
deriving Repr, DecidableEq

/-- Result of one GetToken call: the returned token or error, the file
system afterwards, and the observable effects. -/
structure GetTokenResult where
  result : Except AuthError Credential
  fs : FS
  effects : Effects

/-- GetToken (oauth2.go): stat the token file; on IsNotExist run the
interactive flow (build auth URL with the constant state and the fresh
verifier, start the callback server, open the browser, wait, then
exchange whatever authCode holds and store the token); otherwise load
the file and return its contents. -/
def GetToken (cfg : Config) (env : Env) : GetTokenResult :=
  if env.statFails then ⟨Except.error AuthError.statFailed, env.fs, noEffects⟩
  else
    match env.fs cfg.tokenFile with
    | none =>
      let params := authCodeURLParams cfg stateArg env.verifier
      let eff : Effects :=
        ⟨true, some cfg.callbackHandlerPath, true, some params, some env.wait.authCode⟩
      match env.exchange env.wait.authCode with
      | Except.error e => ⟨Except.error (AuthError.exchangeFailed e), env.fs, eff⟩
      | Except.ok token =>
        match store env.fs cfg.tokenFile token env.storeOutcome with
        | (fs2, true) => ⟨Except.ok token, fs2, eff⟩
        | (fs2, false) => ⟨Except.error AuthError.storeFailed, fs2, eff⟩
    | some _ =>
      match load env.fs cfg.tokenFile with
      | Except.error e => ⟨Except.error (AuthError.loadFailed e), env.fs, noEffects⟩
      | Except.ok token => ⟨Except.ok token, env.fs, noEffects⟩

/-- oauth2.Token.Valid() as the external library defines it: non-empty
access token and not expired, where a zero expiry means it never
expires. -/
def tokenValid (now : Int) (t : Credential) : Bool :=
  t.accessToken != "" && (t.expiry == 0 || decide (now < t.expiry))

/-- The external TokenSource's Token(): return the token unchanged while
it is valid, otherwise perform a network refresh with the provider. -/
def tsToken (env : Env) (t : Credential) : Except String Credential :=
  if tokenValid env.now t then Except.ok t else env.refresh t

/-- NewOAuth2Client (oauth2.go): GetToken, then force an eager
ts.Token() validation/refresh; if the validated token's access token
differs from the loaded one, store it — a store failure there is only a
logged warning; finally return the client built over the token source
(whose cached token is the validated one). -/
def NewOAuth2Client (cfg : Config) (env : Env) : GetTokenResult :=
  let g := GetToken cfg env
  match g.result with
  | Except.error e => ⟨Except.error e, g.fs, g.effects⟩
  | Except.ok token =>
    match tsToken env token with
    | Except.error e => ⟨Except.error (AuthError.refreshFailed e), g.fs, g.effects⟩
    | Except.ok validToken =>
      if validToken.accessToken ≠ token.accessToken then
        ⟨Except.ok validToken, (store g.fs cfg.tokenFile validToken env.storeOutcome).1,
          g.effects⟩
      else ⟨Except.ok validToken, g.fs, g.effects⟩

theorem decode_encode (t : Credential) : decodeToken (encodeToken t) = some t := by
  obtain ⟨a, ty, r, e⟩ := t
  by_cases hty : ty = "" <;> by_cases hr : r = "" <;>
    simp [encodeToken, decodeToken, setField, hty, hr]

/-
Concrete fixtures used by the witnesses and counterexamples below.
-/

def fsWith (name : String) (d : FileData) : FS :=
  fun m => if m = name then some d else none

def noExchange : String → Except String Credential :=
  fun _ => Except.error "unsupported_grant_type"

def noRefresh : Credential → Except String Credential :=
  fun _ => Except.error "invalid_grant"

def cfgA : Config :=
  ⟨"client-1", "secret-1", ["email", "profile"],
   "https://provider.example/auth", "https://provider.example/token",
   "", "", "token.json"⟩

def tokA : Credential := ⟨"access-A", "Bearer", "refresh-A", 100⟩

def baseEnv : Env :=
  { fs := emptyFS, statFails := false, wait := WaitOutcome.timeout,
    verifier := "verifier-0", exchange := noExchange, refresh := noRefresh,
    storeOutcome := StoreOutcome.ok, now := 50 }

/-
Claim theorems.
-/

/-- C4: for every Credential C, saving C to the token file and then
loading the same file returns exactly C in all four fields. -/
theorem store_then_load_roundtrip (fs : FS) (name : String) (t : Credential) :
    load (store fs name t StoreOutcome.ok).1 name = Except.ok t := by
  simp [load, store, FS.update, decodeFile, decode_encode]

/-- C5: when the token file holds a valid, non-expired Credential,
GetToken returns it by loading the file and neither starts the callback
receiver nor invokes the browser launcher. -/
theorem cached_token_skips_interactive (cfg : Config) (env : Env) (t : Credential)
    (now : Int)
    (hstat : env.statFails = false)
    (hfile : env.fs cfg.tokenFile = some (FileData.json (encodeToken t)))
    (hvalid : tokenValid now t = true) :
    (GetToken cfg env).result = Except.ok t ∧
    (GetToken cfg env).effects.startedReceiver = false ∧
    (GetToken cfg env).effects.launchedBrowser = false := by
  simp [GetToken, hstat, hfile, load, decodeFile, decode_encode, noEffects]

def envC5 : Env := { baseEnv with fs := fsWith "token.json" (FileData.json (encodeToken tokA)) }

/-- Witness for C5: a concrete valid, non-expired cached token. -/
theorem cached_token_skips_interactive_witness :
    (GetToken cfgA envC5).result = Except.ok tokA ∧
    (GetToken cfgA envC5).effects.startedReceiver = false ∧
    (GetToken cfgA envC5).effects.launchedBrowser = false :=
  cached_token_skips_interactive cfgA envC5 tokA 50 rfl (by decide) (by decide)

/-- C10: GetToken branches only on the token file's existence: whenever
the file exists and its JSON decodes, the stored Credential is returned
unchanged, the file system is untouched, and no effect — receiver,
browser, or exchange network call — occurs, regardless of expiry or of a
missing refresh token. -/
theorem getToken_decides_on_existence_only (cfg : Config) (env : Env)
    (fields : List (String × JsonVal)) (t : Credential)
    (hstat : env.statFails = false)
    (hfile : env.fs cfg.tokenFile = some (FileData.json fields))
    (hdec : decodeToken fields = some t) :
    (GetToken cfg env).result = Except.ok t ∧
    (GetToken cfg env).fs = env.fs ∧
    (GetToken cfg env).effects = noEffects := by
  simp [GetToken, hstat, hfile, load, decodeFile, hdec]

def tokOld : Credential := ⟨"access-old", "Bearer", "", 10⟩

def envC10 : Env :=
  { baseEnv with fs := fsWith "token.json" (FileData.json (encodeToken tokOld)) }

/-- Witness for C10: a concrete cached token that is already expired
(expiry 10 < now 50) and has no refresh token is still returned as-is,
with no effects. -/
theorem getToken_decides_on_existence_only_witness :
    tokOld.refreshToken = "" ∧ tokOld.expiry < baseEnv.now ∧
    ((GetToken cfgA envC10).result = Except.ok tokOld ∧
     (GetToken cfgA envC10).fs = envC10.fs ∧
     (GetToken cfgA envC10).effects = noEffects) :=
  ⟨rfl, by decide,
   getToken_decides_on_existence_only cfgA envC10 (encodeToken tokOld) tokOld
     rfl (by decide) (by decide)⟩

/-- C7: a token file that exists but holds malformed JSON makes load
return parseError — a constructor distinct from notFound — and GetToken
propagates that error with no interactive flow (no effects). -/
theorem malformed_file_error_propagates (cfg : Config) (env : Env)
    (hstat : env.statFails = false)
    (hfile : env.fs cfg.tokenFile = some FileData.malformed) :
    load env.fs cfg.tokenFile = Except.error LoadError.parseError ∧
    LoadError.parseError ≠ LoadError.notFound ∧
    (GetToken cfg env).result = Except.error (AuthError.loadFailed LoadError.parseError) ∧
    (GetToken cfg env).effects = noEffects := by
  simp [GetToken, load, hstat, hfile, decodeFile]

def envC7 : Env := { baseEnv with fs := fsWith "token.json" FileData.malformed }

/-- Witness for C7 at a concrete malformed token file. -/
theorem malformed_file_error_propagates_witness :
    load envC7.fs cfgA.tokenFile = Except.error LoadError.parseError ∧
    LoadError.parseError ≠ LoadError.notFound ∧
    (GetToken cfgA envC7).result = Except.error (AuthError.loadFailed LoadError.parseError) ∧
    (GetToken cfgA envC7).effects = noEffects :=
  malformed_file_error_propagates cfgA envC7 rfl (by decide)

/-- C8: in the interactive flow (token file absent), when the token
exchange fails, GetToken returns the exchange error and leaves the file
system — hence the token store — unchanged: nothing is persisted. -/
theorem exchange_failure_terminal_nothing_persisted (cfg : Config) (env : Env) (e : String)
    (hstat : env.statFails = false)
    (hfile : env.fs cfg.tokenFile = none)
    (hex : env.exchange env.wait.authCode = Except.error e) :
    (GetToken cfg env).result = Except.error (AuthError.exchangeFailed e) ∧
    (GetToken cfg env).fs = env.fs := by
  simp [GetToken, hstat, hfile, hex]

def envC8 : Env :=
  { baseEnv with wait := WaitOutcome.code "auth-code-1",
                 exchange := fun _ => Except.error "invalid_grant" }

/-- Witness for C8: a concrete flow where the provider rejects the
received code. -/
theorem exchange_failure_terminal_nothing_persisted_witness :
    (GetToken cfgA envC8).result = Except.error (AuthError.exchangeFailed "invalid_grant") ∧
    (GetToken cfgA envC8).fs = envC8.fs :=
  exchange_failure_terminal_nothing_persisted cfgA envC8 "invalid_grant" rfl rfl rfl

/-- C9: in the interactive flow, when the exchange succeeds but
persisting the new Credential fails, GetToken returns the store error,
not the token. -/
theorem persist_failure_after_exchange_is_fatal (cfg : Config) (env : Env) (t : Credential)
    (hstat : env.statFails = false)
    (hfile : env.fs cfg.tokenFile = none)
    (hex : env.exchange env.wait.authCode = Except.ok t)
    (hst : env.storeOutcome ≠ StoreOutcome.ok) :
    (GetToken cfg env).result = Except.error AuthError.storeFailed := by
  cases hso : env.storeOutcome with
  | ok => exact absurd hso hst
  | openFail => simp [GetToken, hstat, hfile, hex, store, hso]
  | writeFail => simp [GetToken, hstat, hfile, hex, store, hso]

/-- Helper: writing d to name makes name hold d. -/
theorem FS.update_self (fs : FS) (name : String) (d : FileData) :
    fs.update name d name = some d := by
  simp [FS.update]

/-- Helper: when the token file exists and decodes, GetToken takes the
load branch and returns the decoded token with no effects. -/
theorem getToken_load (cfg : Config) (env : Env)
    (fields : List (String × JsonVal)) (t : Credential)
    (hstat : env.statFails = false)
    (hfile : env.fs cfg.tokenFile = some (FileData.json fields))
    (hdec : decodeToken fields = some t) :
    GetToken cfg env = ⟨Except.ok t, env.fs, noEffects⟩ := by
  simp [GetToken, hstat, hfile, load, decodeFile, hdec]

/-- Helper: when the token file is absent, GetToken runs the interactive
flow and its effects are: receiver started on the (defaulted) ServerPath,
browser launched, auth params built with the constant state and this
call's verifier, and Exchange invoked on the authCode the select left. -/
theorem getToken_interactive_effects (cfg : Config) (env : Env)
    (hstat : env.statFails = false)
    (hfile : env.fs cfg.tokenFile = none) :
    (GetToken cfg env).effects =
      ⟨true, some cfg.callbackHandlerPath, true,
       some (authCodeURLParams cfg stateArg env.verifier), some env.wait.authCode⟩ := by
  cases hex : env.exchange env.wait.authCode with
  | error e => simp [GetToken, hstat, hfile, hex]
  | ok t =>
    cases hso : env.storeOutcome with
    | ok => simp [GetToken, hstat, hfile, hex, hso, store]
    | openFail => simp [GetToken, hstat, hfile, hex, hso, store]
    | writeFail => simp [GetToken, hstat, hfile, hex, hso, store]

def tokNew : Credential := ⟨"access-new", "Bearer", "refresh-new", 900⟩

def envC9 : Env :=
  { baseEnv with wait := WaitOutcome.code "auth-code-2",
                 exchange := fun _ => Except.ok tokNew,
                 storeOutcome := StoreOutcome.openFail }

/-- Witness for C9: a concrete flow where the exchange succeeds and the
token-file write fails. -/
theorem persist_failure_after_exchange_is_fatal_witness :
    (GetToken cfgA envC9).result = Except.error AuthError.storeFailed :=
  persist_failure_after_exchange_is_fatal cfgA envC9 tokNew rfl rfl rfl (by decide)

def tokT : Credential := ⟨"access-T", "Bearer", "refresh-T", 500⟩

def envC1 : Env :=
  { baseEnv with wait := WaitOutcome.timeout,
                 exchange := fun _ => Except.ok tokT }

/-- C1 (code bug): when the select ends by the 5-minute timeout the code
only logs and falls through, so Exchange is called with the empty
authCode; with a token endpoint that accepts the empty code, GetToken
returns a token and persists it — no terminal error is returned, a
successful exchange happens, and a credential is stored. -/
theorem timeout_falls_through_to_exchange :
    envC1.wait = WaitOutcome.timeout ∧
    (GetToken cfgA envC1).effects.exchangeCalled = some "" ∧
    (GetToken cfgA envC1).result = Except.ok tokT ∧
    (GetToken cfgA envC1).fs cfgA.tokenFile = some (FileData.json (encodeToken tokT)) := by
  refine ⟨rfl, rfl, rfl, ?_⟩
  decide

def cfgB : Config := { cfgA with serverPath := "/cb" }

def cfgB2 : Config := { cfgA with serverPath := "/callback" }

/-- C2 (code bug): buildRedirectURL never consults the configured
callback path — two configs that differ only in ServerPath yield the
same redirect URL, whose path is the hard-coded "/callback", while the
callback handler is registered on ServerPath ("/cb" here): the redirect
URI's path does not equal the handler's path. -/
theorem redirect_url_ignores_server_path :
    cfgB.buildRedirectURL = cfgB2.buildRedirectURL ∧
    cfgB.callbackHandlerPath ≠ cfgB2.callbackHandlerPath ∧
    cfgB.buildRedirectURL = "http://localhost:15440/callback" ∧
    cfgB.callbackHandlerPath = "/cb" ∧
    (GetToken cfgB baseEnv).effects.receiverPath = some "/cb" := by
  refine ⟨rfl, by decide, rfl, rfl, rfl⟩

def envS1 : Env := { baseEnv with verifier := "verifier-1" }

def envS2 : Env := { baseEnv with verifier := "verifier-2" }

/-- C3 counterexample: two interactive invocations with distinct PKCE
verifiers embed the very same state value, the constant "state-token",
in their authorization URLs (while their code challenges do differ) —
the state is not a fresh nonce and not distinct across invocations. -/
theorem state_constant_across_invocations :
    envS1.verifier ≠ envS2.verifier ∧
    getParam "code_challenge" ((GetToken cfgA envS1).effects.authParams.getD []) ≠
      getParam "code_challenge" ((GetToken cfgA envS2).effects.authParams.getD []) ∧
    getParam "state" ((GetToken cfgA envS1).effects.authParams.getD []) =
      getParam "state" ((GetToken cfgA envS2).effects.authParams.getD []) ∧
    getParam "state" ((GetToken cfgA envS1).effects.authParams.getD []) =
      some "state-token" := by
  decide

/-- C3 amended: every interactive invocation embeds the constant state
"state-token" in its authorization URL; only the PKCE verifier (and
hence the challenge) is per-flow. -/
theorem state_always_the_constant (cfg : Config) (env : Env)
    (hstat : env.statFails = false)
    (hfile : env.fs cfg.tokenFile = none) :
    (GetToken cfg env).effects.authParams =
      some (authCodeURLParams cfg stateArg env.verifier) ∧
    getParam "state" (authCodeURLParams cfg stateArg env.verifier) = some stateArg ∧
    stateArg = "state-token" := by
  refine ⟨?_, by simp [authCodeURLParams, getParam], rfl⟩
  rw [getToken_interactive_effects cfg env hstat hfile]

/-- Witness for the amended C3 at a concrete interactive invocation. -/
theorem state_always_the_constant_witness :
    (GetToken cfgA envS1).effects.authParams =
      some (authCodeURLParams cfgA stateArg envS1.verifier) ∧
    getParam "state" (authCodeURLParams cfgA stateArg envS1.verifier) = some stateArg ∧
    stateArg = "state-token" :=
  state_always_the_constant cfgA envS1 rfl rfl

def tokStale : Credential := ⟨"access-stale", "Bearer", "refresh-stale", 10⟩

def tokFresh : Credential := ⟨"access-fresh", "Bearer", "refresh-fresh", 800⟩

/-- C6 amended: with an expired stored credential whose refresh the
provider accepts (yielding a different access token), NewOAuth2Client
returns a client over the new token; the token file then holds the new
credential when the write succeeds, the old credential when os.OpenFile
itself failed, and truncated junk when the file was opened (O_TRUNC)
but the write then failed — the store failure never aborts the call. -/
theorem refresh_returns_and_persists_new_token (cfg : Config) (env : Env)
    (old new : Credential)
    (hstat : env.statFails = false)
    (hfile : env.fs cfg.tokenFile = some (FileData.json (encodeToken old)))
    (hexp : tokenValid env.now old = false)
    (href : env.refresh old = Except.ok new)
    (hne : new.accessToken ≠ old.accessToken) :
    (NewOAuth2Client cfg env).result = Except.ok new ∧
    (NewOAuth2Client cfg env).fs cfg.tokenFile =
      (match env.storeOutcome with
       | StoreOutcome.ok => some (FileData.json (encodeToken new))
       | StoreOutcome.openFail => some (FileData.json (encodeToken old))
       | StoreOutcome.writeFail => some FileData.malformed) := by
  have hg : GetToken cfg env = ⟨Except.ok old, env.fs, noEffects⟩ :=
    getToken_load cfg env (encodeToken old) old hstat hfile (decode_encode old)
  unfold NewOAuth2Client
  rw [hg]
  cases hso : env.storeOutcome with
  | ok => simp [tsToken, hexp, href, hne, store, hso, FS.update_self]
  | openFail => simp [tsToken, hexp, href, hne, store, hso, hfile]
  | writeFail => simp [tsToken, hexp, href, hne, store, hso, FS.update_self]

def envC6 : Env :=
  { baseEnv with fs := fsWith "token.json" (FileData.json (encodeToken tokStale)),
                 refresh := fun _ => Except.ok tokFresh }

/-- Witness for the amended C6: a concrete expired stored credential is
refreshed to a new one, which is returned and persisted. -/
theorem refresh_returns_and_persists_new_token_witness :
    (NewOAuth2Client cfgA envC6).result = Except.ok tokFresh ∧
    (NewOAuth2Client cfgA envC6).fs cfgA.tokenFile =
      (match envC6.storeOutcome with
       | StoreOutcome.ok => some (FileData.json (encodeToken tokFresh))
       | StoreOutcome.openFail => some (FileData.json (encodeToken tokStale))
       | StoreOutcome.writeFail => some FileData.malformed) :=
  refresh_returns_and_persists_new_token cfgA envC6 tokStale tokFresh
    rfl (by decide) (by decide) rfl (by decide)

def envC6x : Env :=
  { baseEnv with fs := fsWith "token.json" (FileData.json (encodeToken tokStale)),
                 refresh := fun _ => Except.ok tokFresh,
                 storeOutcome := StoreOutcome.writeFail }

/-- C6 counterexample: with an expired stored credential, an accepted
refresh and a write that fails after the file was already opened (and
hence truncated), the caller still receives the new token, but the token
file no longer keeps the old credential — it holds malformed remains. -/
theorem refresh_persist_failure_loses_old_value :
    (NewOAuth2Client cfgA envC6x).result = Except.ok tokFresh ∧
    (NewOAuth2Client cfgA envC6x).fs cfgA.tokenFile = some FileData.malformed ∧
    some FileData.malformed ≠ some (FileData.json (encodeToken tokStale)) := by
  refine ⟨rfl, by decide, by decide⟩

end OAuth2Kit
